import Mathlib

/-!
# sns_ik: the `SNS_IK` facade (`sns_ik_lib/include/sns_ik/sns_ik.hpp`)

A shallow embedding of the inline members of class `SNS_IK`: the five getters
and the delegating `CartToJnt` overloads, together with the enumeration
`VelocitySolveType`.

Conventions.
* A `double` is only ever copied by the code embedded here, never computed on;
  it is represented by a rational number.
* A C++ reference parameter is an input of the Lean function and a component
  of its result (the value the caller's variable holds after the call).  A
  parameter passed by value is an input only: the caller's variable keeps the
  value it had.
* `getKDLLimits` has four reference parameters of one type, which a caller may
  bind to the same object; there the caller's objects are a store indexed by
  address and each parameter is an address.
* An unscoped enumeration without a fixed underlying type is the range of
  values of the smallest bit-field holding its enumerators, not only the
  enumerators.
* Member functions are not `const`, so every result carries the solver after
  the call.
* The two full `CartToJnt` overloads are only declared in the header (their
  bodies live in the library's implementation file); the delegating overloads
  take them as a parameter.
-/

namespace sns_ik

/-! ## External KDL value types (only stored and copied by the facade) -/

/-- The type `KDL::Vector`: three coordinates. -/
structure Vector where
  x : ℚ
  y : ℚ
  z : ℚ
  deriving DecidableEq, Repr

/-- The value `KDL::Vector::Zero()`. -/
def Vector.Zero : Vector := ⟨0, 0, 0⟩

/-- The type `KDL::Twist`: a translational part `vel` and a rotational part `rot`. -/
structure Twist where
  vel : Vector
  rot : Vector
  deriving DecidableEq, Repr

/-- The value `KDL::Twist::Zero()`: both parts are the zero vector. -/
def Twist.Zero : Twist := ⟨Vector.Zero, Vector.Zero⟩

/-- The type `KDL::Rotation`: the nine entries of a rotation matrix, row by row. -/
structure Rotation where
  data : List ℚ
  deriving DecidableEq, Repr

/-- The type `KDL::Frame`: orientation `M` and origin `p`. -/
structure Frame where
  M : Rotation
  p : Vector
  deriving DecidableEq, Repr

/-- The type `KDL::JntArray`: a resizable array of joint values. -/
structure JntArray where
  data : List ℚ
  deriving DecidableEq, Repr

/-- The constructor `KDL::JntArray(size)`: `size` entries, all zero. -/
def JntArray.ofSize (size : Nat) : JntArray := ⟨List.replicate size 0⟩

/-- The member `KDL::JntArray::rows()`. -/
def JntArray.rows (a : JntArray) : Nat := a.data.length

/-- The joint kinds of `KDL::Joint` used by the example chain. -/
inductive KDLJointType where
  | RotX | RotY | RotZ | TransX | TransY | TransZ | None
  deriving DecidableEq, Repr

/-- The type `KDL::Segment`: a joint and the frame from the joint to the tip. -/
structure Segment where
  joint : KDLJointType
  f_tip : Frame
  deriving DecidableEq, Repr

/-- The type `KDL::Chain`: the segments in the order they were added. -/
structure Chain where
  segments : List Segment
  deriving DecidableEq, Repr

/-- Copy assignment `lhs = rhs` of a value type (`KDL::JntArray`, `KDL::Chain`,
`std::vector`, `std::shared_ptr`): the left side takes the value of the right
side, whatever it held before. -/
def assign {α : Type} (_lhs rhs : α) : α := rhs

/-- A `std::shared_ptr<T>`: the address of the managed object, `none` when empty. -/
structure SharedPtr where
  addr : Option Nat
  deriving DecidableEq, Repr

/-! ## `enum VelocitySolveType` (lines 30-35) -/

/-- The enumeration `VelocitySolveType`.  It is unscoped and has no fixed
underlying type, so its values are those of the smallest bit-field that holds
every enumerator: the largest enumerator is 4, which takes three bits, and the
values are 0 to 7.  A value is given by its discriminant `toNat`. -/
structure VelocitySolveType where
  toNat : Nat
  inRange : toNat < 8
  deriving DecidableEq, Repr

/-- Enumerator `SNS`: the first, without initialiser, so 0. -/
def VelocitySolveType.SNS : VelocitySolveType := ⟨0, by decide⟩

/-- Enumerator `SNS_Optimal`: the previous one plus one. -/
def VelocitySolveType.SNS_Optimal : VelocitySolveType := ⟨1, by decide⟩

/-- Enumerator `SNS_OptimalScaleMargin`: the previous one plus one. -/
def VelocitySolveType.SNS_OptimalScaleMargin : VelocitySolveType := ⟨2, by decide⟩

/-- Enumerator `SNS_Fast`: the previous one plus one. -/
def VelocitySolveType.SNS_Fast : VelocitySolveType := ⟨3, by decide⟩

/-- Enumerator `SNS_FastOptimal`: the previous one plus one. -/
def VelocitySolveType.SNS_FastOptimal : VelocitySolveType := ⟨4, by decide⟩

/-- The enumerators in the order of the declaration. -/
def VelocitySolveType.declared : List VelocitySolveType :=
  [VelocitySolveType.SNS, VelocitySolveType.SNS_Optimal,
    VelocitySolveType.SNS_OptimalScaleMargin, VelocitySolveType.SNS_Fast,
    VelocitySolveType.SNS_FastOptimal]

/-- The private enumeration `SNS_IK::JointType` (line 132), unscoped and
without fixed underlying type: the largest enumerator is 2, which takes two
bits, so the values are 0 to 3. -/
structure JointType where
  toNat : Nat
  inRange : toNat < 4
  deriving DecidableEq, Repr

/-- Enumerator `Revolute`: the first, so 0. -/
def JointType.Revolute : JointType := ⟨0, by decide⟩

/-- Enumerator `Prismatic`: the previous one plus one. -/
def JointType.Prismatic : JointType := ⟨1, by decide⟩

/-- Enumerator `Continuous`: the previous one plus one. -/
def JointType.Continuous : JointType := ⟨2, by decide⟩

/-! ## The private state of `SNS_IK` (lines 125-139) -/

/-- The data members of class `SNS_IK`, in declaration order. -/
structure SNS_IK where
  m_initialized : Bool
  m_eps : ℚ
  m_looprate : ℚ
  m_solvetype : VelocitySolveType
  m_chain : Chain
  m_lower_bounds : JntArray
  m_upper_bounds : JntArray
  m_velocity : JntArray
  m_acceleration : JntArray
  m_types : List JointType
  m_jointNames : List String
  m_solutions : List JntArray
  m_ik_vel_solver : SharedPtr
  m_ik_pos_solver : SharedPtr
  m_jacobianSolver : SharedPtr
  deriving DecidableEq, Repr

/-- The result of calling a getter: the returned `bool`, the values the caller's
argument variables hold after the call, and the solver after the call. -/
structure Got (α : Type) where
  ret : Bool
  args : α
  self : SNS_IK

/-- The caller's `KDL::JntArray` objects, by address.  A `KDL::JntArray&`
parameter is the address of one of them; two parameters may be bound to the
same object. -/
abbrev JntStore : Type := Nat → JntArray

/-- Assignment through a reference, `ref = rhs`: the object at `ref` takes the
value `rhs`, every other object is untouched. -/
def JntStore.write (mem : JntStore) (ref : Nat) (rhs : JntArray) : JntStore :=
  Function.update mem ref (assign (mem ref) rhs)

/-! ## The getters (lines 58-84) -/

/-- The member `getPositionSolver(std::shared_ptr<SNSPositionIK>& positionSolver)`. -/
def SNS_IK.getPositionSolver (s : SNS_IK) (positionSolver : SharedPtr) : Got SharedPtr :=
  let positionSolver := assign positionSolver s.m_ik_pos_solver
  { ret := s.m_initialized, args := positionSolver, self := s }

/-- The member `getVelocitySolver(std::shared_ptr<SNSVelocityIK>& velocitySolver)`. -/
def SNS_IK.getVelocitySolver (s : SNS_IK) (velocitySolver : SharedPtr) : Got SharedPtr :=
  let velocitySolver := assign velocitySolver s.m_ik_vel_solver
  { ret := s.m_initialized, args := velocitySolver, self := s }

/-- The member `getKDLChain(KDL::Chain& chain)`. -/
def SNS_IK.getKDLChain (s : SNS_IK) (chain : Chain) : Got Chain :=
  let chain := assign chain s.m_chain
  { ret := s.m_initialized, args := chain, self := s }

/-- The member `getKDLLimits(lb, ub, vel, accel)`.  The four parameters are
references into the caller's objects `mem`; the four assignments run in the
order of the source, each through its reference.  The private members cannot
be among the caller's objects, so the right sides are read from the solver. -/
def SNS_IK.getKDLLimits (s : SNS_IK) (mem : JntStore) (lb ub vel accel : Nat) :
    Got JntStore :=
  let mem := mem.write lb s.m_lower_bounds
  let mem := mem.write ub s.m_upper_bounds
  let mem := mem.write vel s.m_velocity
  let mem := mem.write accel s.m_acceleration
  { ret := s.m_initialized, args := mem, self := s }

/-- The body of `getJointNames`: the value of the parameter `jointNames` when the
function returns, and the returned `bool`. -/
def SNS_IK.getJointNames_body (s : SNS_IK) (jointNames : List String) : Bool × List String :=
  let jointNames := assign jointNames s.m_jointNames
  (s.m_initialized, jointNames)

/-- The member `getJointNames(std::vector<std::string> jointNames)`.  The
parameter is passed by value: the body assigns to its own copy, which is
destroyed on return, and the caller's vector keeps the value it was passed
with. -/
def SNS_IK.getJointNames (s : SNS_IK) (names : List String) : Got (List String) :=
  { ret := (s.getJointNames_body names).1, args := names, self := s }

/-! ## The `CartToJnt` overloads (lines 86-123) -/

/-- The result of a `CartToJnt` call: the returned `int`, the value of the
output array (`q_out` or `qdot_out`) after the call, and the solver after the
call. -/
structure Solved where
  status : Int
  out : JntArray
  self : SNS_IK
  deriving DecidableEq

/-- The full position-level overload (lines 102-106), defined outside the header:
`(this, q_init, p_in, q_bias, biasNames, q_out, tolerances)`. -/
abbrev PositionFull : Type :=
  SNS_IK → JntArray → Frame → JntArray → List String → JntArray → Twist → Solved

/-- The full velocity-level overload (lines 119-123), defined outside the header:
`(this, q_in, v_in, q_bias, biasNames, qdot_out)`. -/
abbrev VelocityFull : Type :=
  SNS_IK → JntArray → Twist → JntArray → List String → JntArray → Solved

/-- A trailing parameter declared `const KDL::Twist& t = KDL::Twist::Zero()`:
`none` is a call that leaves the argument out, `some t` one that passes `t`. -/
def defaultTwist (tolerances : Option Twist) : Twist :=
  match tolerances with
  | some t => t
  | none => Twist.Zero

/-- Position level, full overload as declared at lines 102-106 (with its default
argument). -/
def SNS_IK.CartToJnt_full (impl : PositionFull) (s : SNS_IK) (q_init : JntArray)
    (p_in : Frame) (q_bias : JntArray) (biasNames : List String) (q_out : JntArray)
    (tolerances : Option Twist) : Solved :=
  impl s q_init p_in q_bias biasNames q_out (defaultTwist tolerances)

/-- Position level, no bias (lines 86-92). -/
def SNS_IK.CartToJnt (impl : PositionFull) (s : SNS_IK) (q_init : JntArray)
    (p_in : Frame) (q_out : JntArray) (tolereances : Option Twist) : Solved :=
  s.CartToJnt_full impl q_init p_in (JntArray.ofSize 0) ([] : List String)
    q_out (some (defaultTwist tolereances))

/-- Position level, bias without names (lines 94-100). -/
def SNS_IK.CartToJnt_bias (impl : PositionFull) (s : SNS_IK) (q_init : JntArray)
    (p_in : Frame) (q_bias : JntArray) (q_out : JntArray)
    (tolerances : Option Twist) : Solved :=
  s.CartToJnt_full impl q_init p_in q_bias s.m_jointNames
    q_out (some (defaultTwist tolerances))

/-- Velocity level, full overload as declared at lines 119-123. -/
def SNS_IK.CartToJntVel_full (impl : VelocityFull) (s : SNS_IK) (q_in : JntArray)
    (v_in : Twist) (q_bias : JntArray) (biasNames : List String)
    (qdot_out : JntArray) : Solved :=
  impl s q_in v_in q_bias biasNames qdot_out

/-- Velocity level, no bias (lines 108-111). -/
def SNS_IK.CartToJntVel (impl : VelocityFull) (s : SNS_IK) (q_in : JntArray)
    (v_in : Twist) (qdot_out : JntArray) : Solved :=
  s.CartToJntVel_full impl q_in v_in (JntArray.ofSize 0) ([] : List String) qdot_out

/-- Velocity level, bias without names (lines 113-117). -/
def SNS_IK.CartToJntVel_bias (impl : VelocityFull) (s : SNS_IK) (q_in : JntArray)
    (v_in : Twist) (q_bias : JntArray) (qdot_out : JntArray) : Solved :=
  s.CartToJntVel_full impl q_in v_in q_bias s.m_jointNames qdot_out

/-! ## Concrete values used to evaluate the definitions -/

/-- A two-joint solver state with distinct contents in every limit array; the
flag `m_initialized` is the argument. -/
def sampleSolver (init : Bool) : SNS_IK :=
  { m_initialized := init
    m_eps := 1 / 100000
    m_looprate := 5 / 1000
    m_solvetype := VelocitySolveType.SNS
    m_chain := ⟨[⟨KDLJointType.RotZ, ⟨⟨[1, 0, 0, 0, 1, 0, 0, 0, 1]⟩, ⟨0, 0, 1⟩⟩⟩,
                 ⟨KDLJointType.RotX, ⟨⟨[1, 0, 0, 0, 1, 0, 0, 0, 1]⟩, ⟨0, 0, 2⟩⟩⟩]⟩
    m_lower_bounds := ⟨[-3, -2]⟩
    m_upper_bounds := ⟨[3, 2]⟩
    m_velocity := ⟨[1, 4]⟩
    m_acceleration := ⟨[5, 6]⟩
    m_types := [JointType.Revolute, JointType.Revolute]
    m_jointNames := ["j1", "j2"]
    m_solutions := []
    m_ik_vel_solver := ⟨some 16⟩
    m_ik_pos_solver := ⟨some 32⟩
    m_jacobianSolver := ⟨some 48⟩ }

/-- Caller memory in which every `KDL::JntArray` object is empty. -/
def emptyStore : JntStore := fun _ => ⟨[]⟩

/-- A stand-in for the full position-level overload that reports what it was
called with: the status is the number of bias names, the output array is the
bias followed by the three translational tolerances. -/
def echoPosition : PositionFull :=
  fun s _q_init _p_in q_bias biasNames _q_out tolerances =>
    { status := (biasNames.length : Int)
      out := ⟨q_bias.data ++ [tolerances.vel.x, tolerances.vel.y, tolerances.vel.z]⟩
      self := s }

/-- A stand-in for the full velocity-level overload that reports what it was
called with: the status is the number of bias names, the output array is the
bias. -/
def echoVelocity : VelocityFull :=
  fun s _q_in _v_in q_bias biasNames _qdot_out =>
    { status := (biasNames.length : Int), out := q_bias, self := s }

end sns_ik

namespace sns_ik

/-! ## Basic facts -/

theorem assign_eq {α : Type} (a b : α) : assign a b = b := rfl

theorem defaultTwist_some (t : Twist) : defaultTwist (some t) = t := rfl

theorem defaultTwist_none : defaultTwist none = Twist.Zero := rfl

theorem defaultTwist_idem (t : Option Twist) :
    defaultTwist (some (defaultTwist t)) = defaultTwist t := rfl

theorem JntArray.rows_eq_zero_iff (b : JntArray) : b.rows = 0 ↔ b = JntArray.ofSize 0 := by
  cases b with
  | mk data =>
    simp [JntArray.rows, JntArray.ofSize]

/-! ## The enumeration -/

/-- C7, as the claim states it, fails: the value with discriminant 5 is a value
of `VelocitySolveType` and is none of `SNS`, `SNS_Optimal`,
`SNS_OptimalScaleMargin`, `SNS_Fast`, `SNS_FastOptimal`, so not every value is
one of the five variants. -/
theorem VelocitySolveType_not_closed :
    (⟨5, by decide⟩ : VelocitySolveType).toNat = 5 ∧
    (⟨5, by decide⟩ : VelocitySolveType) ≠ VelocitySolveType.SNS ∧
    (⟨5, by decide⟩ : VelocitySolveType) ≠ VelocitySolveType.SNS_Optimal ∧
    (⟨5, by decide⟩ : VelocitySolveType) ≠ VelocitySolveType.SNS_OptimalScaleMargin ∧
    (⟨5, by decide⟩ : VelocitySolveType) ≠ VelocitySolveType.SNS_Fast ∧
    (⟨5, by decide⟩ : VelocitySolveType) ≠ VelocitySolveType.SNS_FastOptimal ∧
    (⟨5, by decide⟩ : VelocitySolveType) ∉ VelocitySolveType.declared ∧
    ¬ (∀ t : VelocitySolveType, t ∈ VelocitySolveType.declared) := by
  refine ⟨rfl, by decide, by decide, by decide, by decide, by decide, by decide, ?_⟩
  intro h
  exact absurd (h ⟨5, by decide⟩) (by decide)

/-- C7, amended: the five variants are a closed set among the values with
discriminant at most 4.  Every value of `VelocitySolveType` whose discriminant
is at most 4 is exactly one of `SNS`, `SNS_Optimal`, `SNS_OptimalScaleMargin`,
`SNS_Fast`, `SNS_FastOptimal` (it occurs once in the list of the five); the
five are pairwise distinct; in declaration order their discriminants are 0, 1,
2, 3, 4; and different values have different discriminants. -/
theorem VelocitySolveType_named (t : VelocitySolveType) (h : t.toNat ≤ 4) :
    (t = VelocitySolveType.SNS ∨ t = VelocitySolveType.SNS_Optimal ∨
      t = VelocitySolveType.SNS_OptimalScaleMargin ∨ t = VelocitySolveType.SNS_Fast ∨
      t = VelocitySolveType.SNS_FastOptimal) ∧
    VelocitySolveType.declared.count t = 1 ∧
    VelocitySolveType.declared.length = 5 ∧
    VelocitySolveType.declared.Nodup ∧
    VelocitySolveType.declared.map VelocitySolveType.toNat = [0, 1, 2, 3, 4] ∧
    Function.Injective VelocitySolveType.toNat := by
  have hinj : Function.Injective VelocitySolveType.toNat := by
    intro a b hab
    cases a
    cases b
    simp only [VelocitySolveType.mk.injEq]
    exact hab
  have hcases : t = VelocitySolveType.SNS ∨ t = VelocitySolveType.SNS_Optimal ∨
      t = VelocitySolveType.SNS_OptimalScaleMargin ∨ t = VelocitySolveType.SNS_Fast ∨
      t = VelocitySolveType.SNS_FastOptimal := by
    obtain ⟨n, hn⟩ := t
    simp only [VelocitySolveType.SNS, VelocitySolveType.SNS_Optimal,
      VelocitySolveType.SNS_OptimalScaleMargin, VelocitySolveType.SNS_Fast,
      VelocitySolveType.SNS_FastOptimal, VelocitySolveType.mk.injEq]
    simp only at h
    omega
  refine ⟨hcases, ?_, rfl, by decide, rfl, hinj⟩
  rcases hcases with e | e | e | e | e <;> subst e <;> decide

/-- The amended C7 at the value `SNS_Fast`, whose discriminant is 3. -/
theorem VelocitySolveType_named_witness :
    VelocitySolveType.SNS_Fast.toNat ≤ 4 ∧
    ((VelocitySolveType.SNS_Fast = VelocitySolveType.SNS ∨
        VelocitySolveType.SNS_Fast = VelocitySolveType.SNS_Optimal ∨
        VelocitySolveType.SNS_Fast = VelocitySolveType.SNS_OptimalScaleMargin ∨
        VelocitySolveType.SNS_Fast = VelocitySolveType.SNS_Fast ∨
        VelocitySolveType.SNS_Fast = VelocitySolveType.SNS_FastOptimal) ∧
      VelocitySolveType.declared.count VelocitySolveType.SNS_Fast = 1 ∧
      VelocitySolveType.declared.length = 5 ∧
      VelocitySolveType.declared.Nodup ∧
      VelocitySolveType.declared.map VelocitySolveType.toNat = [0, 1, 2, 3, 4] ∧
      Function.Injective VelocitySolveType.toNat) :=
  ⟨by decide, VelocitySolveType_named VelocitySolveType.SNS_Fast (by decide)⟩

/-- Every value of the enumeration has a discriminant between 0 and 7. -/
theorem VelocitySolveType_range (t : VelocitySolveType) : t.toNat ≤ 7 :=
  Nat.le_of_lt_succ t.inRange

/-! ## The getters -/

/-- What each of the caller's objects holds after `getKDLLimits`: the field of
the last parameter bound to it, and its old value when no parameter is. -/
theorem getKDLLimits_args (s : SNS_IK) (mem : JntStore) (lb ub vel accel x : Nat) :
    (s.getKDLLimits mem lb ub vel accel).args x =
      if x = accel then s.m_acceleration
      else if x = vel then s.m_velocity
      else if x = ub then s.m_upper_bounds
      else if x = lb then s.m_lower_bounds
      else mem x := by
  simp only [SNS_IK.getKDLLimits, JntStore.write, assign, Function.update_apply]

/-- C6, as the claim states it, fails: when the caller binds one object to all
four parameters of `getKDLLimits`, that object, which is `lb`, ends up holding
`m_acceleration` and not `m_lower_bounds` (sample solver: `[5, 6]`, not
`[-3, -2]`). -/
theorem getKDLLimits_aliased :
    ((sampleSolver true).getKDLLimits emptyStore 0 0 0 0).args 0 =
      (sampleSolver true).m_acceleration ∧
    ((sampleSolver true).getKDLLimits emptyStore 0 0 0 0).args 0 ≠
      (sampleSolver true).m_lower_bounds := by
  rw [getKDLLimits_args]
  norm_num [sampleSolver]

/-- C6, amended: `getKDLLimits` hands back the stored limits in the order lower
position, upper position, maximum velocity, maximum acceleration when the four
arguments are four different objects.  For every solver state, initialised or
not, whatever the caller's objects held before, and pairwise distinct `lb`,
`ub`, `vel`, `accel`, after the call these hold `m_lower_bounds`,
`m_upper_bounds`, `m_velocity`, `m_acceleration` respectively. -/
theorem getKDLLimits_outputs_distinct (s : SNS_IK) (mem : JntStore)
    (lb ub vel accel : Nat) (h : [lb, ub, vel, accel].Nodup) :
    (s.getKDLLimits mem lb ub vel accel).args lb = s.m_lower_bounds ∧
    (s.getKDLLimits mem lb ub vel accel).args ub = s.m_upper_bounds ∧
    (s.getKDLLimits mem lb ub vel accel).args vel = s.m_velocity ∧
    (s.getKDLLimits mem lb ub vel accel).args accel = s.m_acceleration := by
  simp only [List.nodup_cons, List.mem_cons, List.mem_singleton, not_or,
    List.not_mem_nil, not_false_eq_true, List.nodup_nil, and_true] at h
  obtain ⟨⟨h1, h2, h3⟩, ⟨h4, h5⟩, h6⟩ := h
  simp only [getKDLLimits_args]
  refine ⟨?_, ?_, ?_, ?_⟩
  · simp [h1, h2, h3]
  · simp [h4, h5]
  · simp [h6]
  · simp

/-- The amended C6 at the sample solver, with the objects at addresses 0, 1, 2
and 3 as `lb`, `ub`, `vel` and `accel`. -/
theorem getKDLLimits_outputs_distinct_witness :
    [0, 1, 2, 3].Nodup ∧
    (((sampleSolver false).getKDLLimits emptyStore 0 1 2 3).args 0 =
        (sampleSolver false).m_lower_bounds ∧
      ((sampleSolver false).getKDLLimits emptyStore 0 1 2 3).args 1 =
        (sampleSolver false).m_upper_bounds ∧
      ((sampleSolver false).getKDLLimits emptyStore 0 1 2 3).args 2 =
        (sampleSolver false).m_velocity ∧
      ((sampleSolver false).getKDLLimits emptyStore 0 1 2 3).args 3 =
        (sampleSolver false).m_acceleration) :=
  ⟨by decide, getKDLLimits_outputs_distinct (sampleSolver false) emptyStore 0 1 2 3
    (by decide)⟩

/-- On the sample solver, whose four limit arrays are pairwise different, the
four different objects receive the four arrays in parameter order and a fifth
object keeps its value. -/
theorem getKDLLimits_sample_not_swapped (init : Bool) :
    ((sampleSolver init).getKDLLimits emptyStore 0 1 2 3).args 0 = ⟨[-3, -2]⟩ ∧
    ((sampleSolver init).getKDLLimits emptyStore 0 1 2 3).args 1 = ⟨[3, 2]⟩ ∧
    ((sampleSolver init).getKDLLimits emptyStore 0 1 2 3).args 2 = ⟨[1, 4]⟩ ∧
    ((sampleSolver init).getKDLLimits emptyStore 0 1 2 3).args 3 = ⟨[5, 6]⟩ ∧
    ((sampleSolver init).getKDLLimits emptyStore 0 1 2 3).args 4 = ⟨[]⟩ :=
  ⟨rfl, rfl, rfl, rfl, rfl⟩

/-- The caller's vector after `getJointNames` is the vector that was passed. -/
theorem getJointNames_args (s : SNS_IK) (names : List String) :
    (s.getJointNames names).args = names := rfl

/-- C8: evaluation of `getJointNames` at an initialised solver whose joint
names are `j1`, `j2` and a caller vector that is empty: the call returns true,
and afterwards the caller's vector is still empty, not the solver's joint-name
list. -/
theorem getJointNames_does_not_deliver :
    ((sampleSolver true).getJointNames []).ret = true ∧
    ((sampleSolver true).getJointNames []).args = [] ∧
    ((sampleSolver true).getJointNames []).args ≠ (sampleSolver true).m_jointNames := by
  refine ⟨rfl, rfl, ?_⟩
  simp [SNS_IK.getJointNames, sampleSolver]

/-- The return values of the getters and their unguarded assignments.  For
every solver state and all arguments, each of `getPositionSolver`,
`getVelocitySolver`, `getKDLChain`, `getKDLLimits`, `getJointNames` returns
`m_initialized` (so the five agree, whatever their arguments), and no
assignment is guarded by the flag: the reference parameters hold the field
assigned last through them after the call, and the body of `getJointNames`
has assigned `m_jointNames` to its own by-value parameter. -/
theorem getters_report_initialized (s : SNS_IK) (p v : SharedPtr) (c : Chain)
    (mem : JntStore) (lb ub vel accel : Nat) (names : List String) :
    ((s.getPositionSolver p).ret = s.m_initialized ∧
      (s.getVelocitySolver v).ret = s.m_initialized ∧
      (s.getKDLChain c).ret = s.m_initialized ∧
      (s.getKDLLimits mem lb ub vel accel).ret = s.m_initialized ∧
      (s.getJointNames names).ret = s.m_initialized) ∧
    (((s.getPositionSolver p).ret = true ↔ s.m_initialized = true) ∧
      ((s.getVelocitySolver v).ret = true ↔ s.m_initialized = true) ∧
      ((s.getKDLChain c).ret = true ↔ s.m_initialized = true) ∧
      ((s.getKDLLimits mem lb ub vel accel).ret = true ↔ s.m_initialized = true) ∧
      ((s.getJointNames names).ret = true ↔ s.m_initialized = true)) ∧
    ((s.getPositionSolver p).args = s.m_ik_pos_solver ∧
      (s.getVelocitySolver v).args = s.m_ik_vel_solver ∧
      (s.getKDLChain c).args = s.m_chain ∧
      (s.getKDLLimits mem lb ub vel accel).args accel = s.m_acceleration ∧
      (s.getJointNames_body names).2 = s.m_jointNames) :=
  ⟨⟨rfl, rfl, rfl, rfl, rfl⟩, ⟨Iff.rfl, Iff.rfl, Iff.rfl, Iff.rfl, Iff.rfl⟩,
    ⟨rfl, rfl, rfl, by simp [getKDLLimits_args], rfl⟩⟩

/-- C9: evaluation of the five getters at the sample solver with
`m_initialized` cleared and empty caller variables, the four limit arrays
being the different objects at addresses 0, 1, 2 and 3.  All five return false;
the four getters with reference parameters have written their output (the
caller holds the solver's field); `getJointNames` has not: the caller's vector
is still empty and differs from `m_jointNames`. -/
theorem getters_uninitialized_outputs :
    (((sampleSolver false).getPositionSolver ⟨none⟩).ret = false ∧
      ((sampleSolver false).getVelocitySolver ⟨none⟩).ret = false ∧
      ((sampleSolver false).getKDLChain ⟨[]⟩).ret = false ∧
      ((sampleSolver false).getKDLLimits emptyStore 0 1 2 3).ret = false ∧
      ((sampleSolver false).getJointNames []).ret = false) ∧
    (((sampleSolver false).getPositionSolver ⟨none⟩).args =
        (sampleSolver false).m_ik_pos_solver ∧
      ((sampleSolver false).getVelocitySolver ⟨none⟩).args =
        (sampleSolver false).m_ik_vel_solver ∧
      ((sampleSolver false).getKDLChain ⟨[]⟩).args = (sampleSolver false).m_chain ∧
      ((sampleSolver false).getKDLLimits emptyStore 0 1 2 3).args 0 = ⟨[-3, -2]⟩ ∧
      ((sampleSolver false).getKDLLimits emptyStore 0 1 2 3).args 1 = ⟨[3, 2]⟩ ∧
      ((sampleSolver false).getKDLLimits emptyStore 0 1 2 3).args 2 = ⟨[1, 4]⟩ ∧
      ((sampleSolver false).getKDLLimits emptyStore 0 1 2 3).args 3 = ⟨[5, 6]⟩) ∧
    (((sampleSolver false).getJointNames []).args = [] ∧
      (sampleSolver false).m_jointNames = ["j1", "j2"] ∧
      ((sampleSolver false).getJointNames []).args ≠ (sampleSolver false).m_jointNames) := by
  refine ⟨⟨rfl, rfl, rfl, rfl, rfl⟩, ⟨rfl, rfl, rfl, rfl, rfl, rfl, rfl⟩, rfl, rfl, ?_⟩
  simp [SNS_IK.getJointNames, sampleSolver]

/-- C10: the getters are read-only on the solver.  For every solver state and
every argument, the solver after each of the five getters is the solver before
the call (so each data member is unchanged), and a second call of the same
getter, on the caller's variables as the first call left them, gives the same
return value and the same outputs as the first; for `getKDLLimits` this holds
whichever of the caller's objects the four parameters are bound to, the same
one several times included. -/
theorem getters_read_only (s : SNS_IK) (p v : SharedPtr) (c : Chain)
    (mem : JntStore) (lb ub vel accel : Nat) (names : List String) :
    ((s.getPositionSolver p).self = s ∧
      (s.getVelocitySolver v).self = s ∧
      (s.getKDLChain c).self = s ∧
      (s.getKDLLimits mem lb ub vel accel).self = s ∧
      (s.getJointNames names).self = s) ∧
    (((s.getPositionSolver p).self.getPositionSolver (s.getPositionSolver p).args).ret =
        (s.getPositionSolver p).ret ∧
      ((s.getPositionSolver p).self.getPositionSolver (s.getPositionSolver p).args).args =
        (s.getPositionSolver p).args ∧
      ((s.getVelocitySolver v).self.getVelocitySolver (s.getVelocitySolver v).args).ret =
        (s.getVelocitySolver v).ret ∧
      ((s.getVelocitySolver v).self.getVelocitySolver (s.getVelocitySolver v).args).args =
        (s.getVelocitySolver v).args ∧
      ((s.getKDLChain c).self.getKDLChain (s.getKDLChain c).args).ret =
        (s.getKDLChain c).ret ∧
      ((s.getKDLChain c).self.getKDLChain (s.getKDLChain c).args).args =
        (s.getKDLChain c).args ∧
      ((s.getKDLLimits mem lb ub vel accel).self.getKDLLimits
          (s.getKDLLimits mem lb ub vel accel).args lb ub vel accel).ret =
        (s.getKDLLimits mem lb ub vel accel).ret ∧
      ((s.getKDLLimits mem lb ub vel accel).self.getKDLLimits
          (s.getKDLLimits mem lb ub vel accel).args lb ub vel accel).args =
        (s.getKDLLimits mem lb ub vel accel).args ∧
      ((s.getJointNames names).self.getJointNames (s.getJointNames names).args).ret =
        (s.getJointNames names).ret ∧
      ((s.getJointNames names).self.getJointNames (s.getJointNames names).args).args =
        (s.getJointNames names).args) := by
  refine ⟨⟨rfl, rfl, rfl, rfl, rfl⟩, ⟨rfl, rfl, rfl, rfl, rfl, rfl, rfl, ?_, rfl, rfl⟩⟩
  funext x
  have hself : (s.getKDLLimits mem lb ub vel accel).self = s := rfl
  rw [hself, getKDLLimits_args, getKDLLimits_args]
  split_ifs <;> rfl

/-! ## The delegating `CartToJnt` overloads -/

/-- C3: a request without a bias is the full request with an empty bias.  For
every full overload, solver state and input, the position-level no-bias
overload returns the same status, the same `q_out` and leaves the same solver
as the full overload called with any bias vector of length 0 and the empty
name list, with or without a tolerance argument; likewise the velocity-level
no-bias overload and the full velocity overload. -/
theorem CartToJnt_no_bias (pos : PositionFull) (vel : VelocityFull) (s : SNS_IK)
    (q_init : JntArray) (p_in : Frame) (q_out : JntArray) (tolerances : Option Twist)
    (q_in : JntArray) (v_in : Twist) (qdot_out : JntArray)
    (q_bias : JntArray) (h : q_bias.rows = 0) :
    s.CartToJnt pos q_init p_in q_out tolerances =
      s.CartToJnt_full pos q_init p_in q_bias [] q_out tolerances ∧
    s.CartToJntVel vel q_in v_in qdot_out =
      s.CartToJntVel_full vel q_in v_in q_bias [] qdot_out := by
  rw [(JntArray.rows_eq_zero_iff q_bias).mp h]
  exact ⟨rfl, rfl⟩

/-- The statement of C3 at the sample solver and the reporting stand-ins, with
the empty array as bias. -/
theorem CartToJnt_no_bias_witness :
    (⟨[]⟩ : JntArray).rows = 0 ∧
    ((sampleSolver true).CartToJnt echoPosition ⟨[1, 2]⟩ ⟨⟨[]⟩, ⟨0, 0, 0⟩⟩ ⟨[7]⟩ none =
        (sampleSolver true).CartToJnt_full echoPosition ⟨[1, 2]⟩ ⟨⟨[]⟩, ⟨0, 0, 0⟩⟩ ⟨[]⟩ []
          ⟨[7]⟩ none ∧
      (sampleSolver true).CartToJntVel echoVelocity ⟨[1, 2]⟩ Twist.Zero ⟨[7]⟩ =
        (sampleSolver true).CartToJntVel_full echoVelocity ⟨[1, 2]⟩ Twist.Zero ⟨[]⟩ []
          ⟨[7]⟩) :=
  ⟨rfl, CartToJnt_no_bias echoPosition echoVelocity (sampleSolver true) ⟨[1, 2]⟩
    ⟨⟨[]⟩, ⟨0, 0, 0⟩⟩ ⟨[7]⟩ none ⟨[1, 2]⟩ Twist.Zero ⟨[7]⟩ ⟨[]⟩ rfl⟩

/-- C4: a bias given without names is applied to all of the solver's joints.
For every full overload, solver state and input, the position-level and the
velocity-level overload taking `q_bias` but no names return exactly what the
corresponding full overload returns for the same `q_bias` with the solver's
`m_jointNames` as `biasNames`. -/
theorem CartToJnt_bias_all_joints (pos : PositionFull) (vel : VelocityFull) (s : SNS_IK)
    (q_init : JntArray) (p_in : Frame) (q_bias : JntArray) (q_out : JntArray)
    (tolerances : Option Twist) (q_in : JntArray) (v_in : Twist) (qdot_out : JntArray) :
    s.CartToJnt_bias pos q_init p_in q_bias q_out tolerances =
      s.CartToJnt_full pos q_init p_in q_bias s.m_jointNames q_out tolerances ∧
    s.CartToJntVel_bias vel q_in v_in q_bias qdot_out =
      s.CartToJntVel_full vel q_in v_in q_bias s.m_jointNames qdot_out :=
  ⟨rfl, rfl⟩

/-- On the sample solver the reporting stand-in sees both joint names and the
bias it was given. -/
theorem CartToJnt_bias_sample :
    ((sampleSolver true).CartToJnt_bias echoPosition ⟨[1, 2]⟩ ⟨⟨[]⟩, ⟨0, 0, 0⟩⟩ ⟨[8, 9]⟩
        ⟨[]⟩ none).status = 2 ∧
    ((sampleSolver true).CartToJntVel_bias echoVelocity ⟨[1, 2]⟩ Twist.Zero ⟨[8, 9]⟩
        ⟨[]⟩).out = ⟨[8, 9]⟩ :=
  ⟨rfl, rfl⟩

/-- C5: pose tolerances are optional and default to zero on every axis.  For
each of the three position-level overloads and every input, the call without
the tolerance argument equals the call with the zero twist, whose three
translational and three rotational components are 0; and a supplied
tolerance `t` reaches the full overload unchanged through both delegating
overloads, the full overload being run with exactly `t`. -/
theorem CartToJnt_default_tolerances (pos : PositionFull) (s : SNS_IK)
    (q_init : JntArray) (p_in : Frame) (q_bias : JntArray) (biasNames : List String)
    (q_out : JntArray) (t : Twist) :
    (s.CartToJnt pos q_init p_in q_out none =
        s.CartToJnt pos q_init p_in q_out (some Twist.Zero) ∧
      s.CartToJnt_bias pos q_init p_in q_bias q_out none =
        s.CartToJnt_bias pos q_init p_in q_bias q_out (some Twist.Zero) ∧
      s.CartToJnt_full pos q_init p_in q_bias biasNames q_out none =
        s.CartToJnt_full pos q_init p_in q_bias biasNames q_out (some Twist.Zero)) ∧
    Twist.Zero = ⟨⟨0, 0, 0⟩, ⟨0, 0, 0⟩⟩ ∧
    (s.CartToJnt pos q_init p_in q_out (some t) =
        s.CartToJnt_full pos q_init p_in (JntArray.ofSize 0) [] q_out (some t) ∧
      s.CartToJnt_bias pos q_init p_in q_bias q_out (some t) =
        s.CartToJnt_full pos q_init p_in q_bias s.m_jointNames q_out (some t) ∧
      s.CartToJnt_full pos q_init p_in q_bias biasNames q_out (some t) =
        pos s q_init p_in q_bias biasNames q_out t) :=
  ⟨⟨rfl, rfl, rfl⟩, rfl, ⟨rfl, rfl, rfl⟩⟩

/-- On the sample solver the reporting stand-in shows the tolerance it was run
with: zero when the argument is left out, the given one otherwise. -/
theorem CartToJnt_tolerances_sample :
    ((sampleSolver true).CartToJnt echoPosition ⟨[1, 2]⟩ ⟨⟨[]⟩, ⟨0, 0, 0⟩⟩ ⟨[]⟩ none).out =
      ⟨[0, 0, 0]⟩ ∧
    ((sampleSolver true).CartToJnt echoPosition ⟨[1, 2]⟩ ⟨⟨[]⟩, ⟨0, 0, 0⟩⟩ ⟨[]⟩
        (some ⟨⟨4, 5, 6⟩, ⟨0, 0, 0⟩⟩)).out = ⟨[4, 5, 6]⟩ :=
  ⟨rfl, rfl⟩

end sns_ik
